import Mathlib

/-!
Verification of the `native-main.c` launcher shim of urmt/FAv3.

The program is a straight-line GTK/WebKit launcher.  We embed it shallowly
as a trace semantics: every toolkit call the program makes is recorded as an
`Event`, and `main` / `on_activate` are Lean functions producing the trace
(and, for `main`, the process exit status).  The toolkit itself is an oracle
(`Runtime`): it supplies the integer status that `g_application_run` returns
and the (uninspected) outcome of the web-view's URI load.
-/

namespace NativeMain

/-- Kinds of widgets the program creates. -/
inductive Widget
  | window
  | webview
  deriving DecidableEq, Repr

/-- One toolkit call made by the program, with the arguments the source
passes at that call site. -/
inductive Event
  /-- `gtk_init()` -/
  | gtkInit
  /-- `gtk_application_new(appId, flags)` -/
  | appNew (appId : String)
  /-- `g_signal_connect(app, signal, handler, NULL)` -/
  | signalConnect (signal : String)
  /-- entry into `g_application_run(app, argc, argv)` -/
  | appRunStart (argc : Nat) (argv : List String)
  /-- return from `g_application_run` -/
  | appRunEnd
  /-- `g_object_unref(app)` -/
  | objectUnref
  /-- `gtk_application_window_new(app)`; `app` is the instance identity -/
  | windowNew (app : Nat)
  /-- `gtk_window_set_title(window, title)` -/
  | setTitle (title : String)
  /-- `gtk_window_set_default_size(window, w, h)` -/
  | setDefaultSize (w h : Int)
  /-- `webkit_web_view_new()` -/
  | webViewNew
  /-- `gtk_container_add(parent, child)` -/
  | containerAdd (parent child : Widget)
  /-- `webkit_web_view_load_uri(webview, uri)` -/
  | loadUri (uri : String)
  /-- `gtk_widget_show_all(window)` -/
  | showAll
  deriving DecidableEq, Repr

/-- The toolkit oracle: the status `g_application_run` returns for given
process arguments, and whether the web-view's load succeeds.  The load
outcome is part of the environment, not of the program: the program never
reads it. -/
structure Runtime where
  runStatus : Nat → List String → Int
  loadResult : Bool

/-- The activation handler `on_activate(app)`, translated line by line from
`src/native-main.c` (lines 16-30).  `app` is the application instance it is
handed; `loadResult` is the toolkit-side outcome of the load command, passed
in to make explicit that the handler has access to nothing else.  The result
is the trace of toolkit calls; the C function returns `void`, so there is no
other result. -/
def on_activate (app : Nat) (_loadResult : Bool) : List Event :=
  [ Event.windowNew app,
    Event.setTitle "Fedora Assistant AI",
    Event.setDefaultSize 1200 800,
    Event.webViewNew,
    Event.containerAdd Widget.window Widget.webview,
    Event.loadUri "file:///usr/share/FedoraAssistant/index.html",
    Event.showAll ]

/-- `main(argc, argv)`, translated line by line from `src/native-main.c`
(lines 4-14).  The single-instance activation fires once inside
`g_application_run`, so the handler's trace is bracketed by
`appRunStart`/`appRunEnd`.  Returns the process exit status together with
the trace of toolkit calls. -/
def main (rt : Runtime) (argc : Nat) (argv : List String) : Int × List Event :=
  let app : Nat := 0
  let status : Int := rt.runStatus argc argv
  ( status,
    [ Event.gtkInit,
      Event.appNew "com.urmt.FedoraAssistant",
      Event.signalConnect "activate",
      Event.appRunStart argc argv ]
    ++ on_activate app rt.loadResult
    ++ [ Event.appRunEnd, Event.objectUnref ] )

/-- The trace of one process run. -/
def mainTrace (rt : Runtime) (argc : Nat) (argv : List String) : List Event :=
  (main rt argc argv).2

/-- The exit status of one process run. -/
def mainStatus (rt : Runtime) (argc : Nat) (argv : List String) : Int :=
  (main rt argc argv).1

/- Recognizers for the event kinds the claims quantify over. -/

def isAppNew : Event → Bool
  | Event.appNew _ => true
  | _ => false

def isUnref : Event → Bool
  | Event.objectUnref => true
  | _ => false

def isGtkInit : Event → Bool
  | Event.gtkInit => true
  | _ => false

def isAppRunStart : Event → Bool
  | Event.appRunStart _ _ => true
  | _ => false

def isAppRunEnd : Event → Bool
  | Event.appRunEnd => true
  | _ => false

def isWindowNew : Event → Bool
  | Event.windowNew _ => true
  | _ => false

def isWebViewNew : Event → Bool
  | Event.webViewNew => true
  | _ => false

def isContainerAdd : Event → Bool
  | Event.containerAdd _ _ => true
  | _ => false

def isSetTitle : Event → Bool
  | Event.setTitle _ => true
  | _ => false

def isSetDefaultSize : Event → Bool
  | Event.setDefaultSize _ _ => true
  | _ => false

def isLoadUri : Event → Bool
  | Event.loadUri _ => true
  | _ => false

def isShowAll : Event → Bool
  | Event.showAll => true
  | _ => false

/-- A widget-creation call: a window or a web-view is constructed. -/
def isWidgetCreate (e : Event) : Bool :=
  isWindowNew e || isWebViewNew e

/-- The URIs handed to the web-view's load command, in trace order. -/
def loadedUris (tr : List Event) : List String :=
  tr.filterMap fun e =>
    match e with
    | Event.loadUri u => some u
    | _ => none

/-- `true` iff some widget-creation call occurs before the first
`gtk_init` in the trace. -/
def widgetBeforeInit : List Event → Bool
  | [] => false
  | e :: rest =>
    match e with
    | Event.gtkInit => false
    | _ => isWidgetCreate e || widgetBeforeInit rest

/-- The run trace spelled out: the fixed bootstrap prefix, the handler's
calls bracketed by the run call, and the final reference release. -/
theorem mainTrace_eq (rt : Runtime) (argc : Nat) (argv : List String) :
    mainTrace rt argc argv =
      [ Event.gtkInit,
        Event.appNew "com.urmt.FedoraAssistant",
        Event.signalConnect "activate",
        Event.appRunStart argc argv,
        Event.windowNew 0,
        Event.setTitle "Fedora Assistant AI",
        Event.setDefaultSize 1200 800,
        Event.webViewNew,
        Event.containerAdd Widget.window Widget.webview,
        Event.loadUri "file:///usr/share/FedoraAssistant/index.html",
        Event.showAll,
        Event.appRunEnd,
        Event.objectUnref ] := rfl

/-- C1: the process exit code returned by `main` is exactly the status that
the event-loop run call (`g_application_run`) returned, unchanged. -/
theorem exit_code_eq_run_status (rt : Runtime) (argc : Nat) (argv : List String) :
    mainStatus rt argc argv = rt.runStatus argc argv := rfl

/-- C2: across any two runs, with any runtimes and any argument vectors, the
web-view receives exactly the same load command, for the one literal URI
`file:///usr/share/FedoraAssistant/index.html`. -/
theorem loaded_uri_independent_of_args (rt₁ rt₂ : Runtime) (a₁ a₂ : Nat)
    (v₁ v₂ : List String) :
    loadedUris (mainTrace rt₁ a₁ v₁) = loadedUris (mainTrace rt₂ a₂ v₂) ∧
    loadedUris (mainTrace rt₁ a₁ v₁) =
      ["file:///usr/share/FedoraAssistant/index.html"] :=
  ⟨rfl, rfl⟩

/-- C3: every invocation of the activation handler sets the title exactly
once, to the literal "Fedora Assistant AI", and the default size exactly
once, to 1200 by 800. -/
theorem window_title_and_size (app : Nat) (r : Bool) :
    (on_activate app r).countP isSetTitle = 1 ∧
    Event.setTitle "Fedora Assistant AI" ∈ on_activate app r ∧
    (on_activate app r).countP isSetDefaultSize = 1 ∧
    Event.setDefaultSize 1200 800 ∈ on_activate app r := by
  refine ⟨rfl, ?_, rfl, ?_⟩ <;> simp [on_activate]

/-- C4: each handler invocation creates exactly one top-level window and
exactly one web-view, and performs exactly one attach, namely of the
web-view into the window. -/
theorem one_window_one_child (app : Nat) (r : Bool) :
    (on_activate app r).countP isWindowNew = 1 ∧
    (on_activate app r).countP isWebViewNew = 1 ∧
    (on_activate app r).countP isContainerAdd = 1 ∧
    Event.containerAdd Widget.window Widget.webview ∈ on_activate app r := by
  refine ⟨rfl, rfl, rfl, ?_⟩
  simp [on_activate]

/-- C5: each run creates exactly one application instance and releases it
exactly once, the release being the very last call of the run, after the
event-loop run call has returned. -/
theorem app_lifecycle (rt : Runtime) (argc : Nat) (argv : List String) :
    (mainTrace rt argc argv).countP isAppNew = 1 ∧
    (mainTrace rt argc argv).countP isUnref = 1 ∧
    (mainTrace rt argc argv).getLast? = some Event.objectUnref ∧
    (mainTrace rt argc argv).findIdx isAppRunEnd <
      (mainTrace rt argc argv).findIdx isUnref := by
  refine ⟨rfl, rfl, rfl, ?_⟩
  show (11 : Nat) < 12
  decide

/-- C6: the run call receives exactly main's `argc` and `argv`, exactly
once, and the calls preceding it are a fixed prefix that neither reads nor
alters the arguments. -/
theorem args_forwarded (rt : Runtime) (argc : Nat) (argv : List String) :
    (mainTrace rt argc argv).countP isAppRunStart = 1 ∧
    Event.appRunStart argc argv ∈ mainTrace rt argc argv ∧
    (mainTrace rt argc argv).take 3 =
      [ Event.gtkInit,
        Event.appNew "com.urmt.FedoraAssistant",
        Event.signalConnect "activate" ] := by
  refine ⟨rfl, ?_, rfl⟩
  rw [mainTrace_eq]
  simp

/-- C7: `gtk_init` is called exactly once per run, and no widget-creation
call precedes it in the trace. -/
theorem init_once_before_widgets (rt : Runtime) (argc : Nat) (argv : List String) :
    (mainTrace rt argc argv).countP isGtkInit = 1 ∧
    widgetBeforeInit (mainTrace rt argc argv) = false :=
  ⟨rfl, rfl⟩

/-- C8: one single load command is issued in the whole run, and it is issued
inside the activation handler; no later call reassigns the URI. -/
theorem uri_assigned_once (rt : Runtime) (argc : Nat) (argv : List String)
    (app : Nat) (r : Bool) :
    (mainTrace rt argc argv).countP isLoadUri = 1 ∧
    Event.loadUri "file:///usr/share/FedoraAssistant/index.html" ∈
      on_activate app r := by
  refine ⟨rfl, ?_⟩
  simp [on_activate]

/-- C9: the handler inspects no result of the load command and yields no
value its caller consumes: with the event-loop status held fixed, a run in
which the load succeeds is indistinguishable, trace and exit code alike,
from one in which it fails. -/
theorem no_error_handling_of_load (f : Nat → List String → Int)
    (r₁ r₂ : Bool) (app argc : Nat) (argv : List String) :
    on_activate app r₁ = on_activate app r₂ ∧
    main ⟨f, r₁⟩ argc argv = main ⟨f, r₂⟩ argc argv :=
  ⟨rfl, rfl⟩

/-- C10: within the handler, the make-visible call is the last call and
occurs exactly once; the title set, the size set, the attach and the load
all come strictly before it. -/
theorem show_all_last (app : Nat) (r : Bool) :
    (on_activate app r).getLast? = some Event.showAll ∧
    (on_activate app r).countP isShowAll = 1 ∧
    (on_activate app r).findIdx isSetTitle < (on_activate app r).findIdx isShowAll ∧
    (on_activate app r).findIdx isSetDefaultSize < (on_activate app r).findIdx isShowAll ∧
    (on_activate app r).findIdx isContainerAdd < (on_activate app r).findIdx isShowAll ∧
    (on_activate app r).findIdx isLoadUri < (on_activate app r).findIdx isShowAll := by
  refine ⟨rfl, rfl, ?_, ?_, ?_, ?_⟩
  · show (1 : Nat) < 6
    decide
  · show (2 : Nat) < 6
    decide
  · show (4 : Nat) < 6
    decide
  · show (5 : Nat) < 6
    decide

end NativeMain
